import Mathlib

/-!
Shallow embedding of the multi-provider summarization core of the
`ai-docs-or-blog-summarizer` browser extension: the provider registry,
dispatch coordinator (`generateSummary` in popup.js), the error classifier
(`classifyError`), the UI catch block of `summarizePage`, and the three
provider adapters (Claude, Gemini, OpenAI) — in particular their
response-envelope parsing and the Gemini image-attachment loop.

JavaScript values are modelled explicitly: `Option` stands for
possibly-`null`/`undefined` fields, JS truthiness is spelled out per type,
and thrown JS values are records of the fields the catch blocks inspect.
-/

/-- The `ERROR_TYPES` enumeration from popup.js. -/
inductive ErrorType where
  | NETWORK_ERROR
  | UNAUTHORIZED
  | RATE_LIMIT
  | SERVER_ERROR
  | TIMEOUT
  | INVALID_RESPONSE
  | CONTENT_EXTRACTION_FAILED
  | UNKNOWN
deriving DecidableEq, Repr

/-- The string values of the `ERROR_TYPES` object (popup.js lines 104-113). -/
def errorTypeStr : ErrorType → String
  | .NETWORK_ERROR => "network_error"
  | .UNAUTHORIZED => "unauthorized"
  | .RATE_LIMIT => "rate_limit"
  | .SERVER_ERROR => "server_error"
  | .TIMEOUT => "timeout"
  | .INVALID_RESPONSE => "invalid_response"
  | .CONTENT_EXTRACTION_FAILED => "content_extraction_failed"
  | .UNKNOWN => "unknown"

/-- The `USER_MESSAGES` table from popup.js (lines 118-131), keyed by kind. -/
def USER_MESSAGES : ErrorType → String
  | .NETWORK_ERROR => "🌐 Network error: Please check your internet connection."
  | .UNAUTHORIZED => "🔑 Invalid API key. Please update your API key in the extension settings."
  | .RATE_LIMIT => "⏱️ Rate limited: Too many requests. Please try again in a few moments."
  | .SERVER_ERROR => "🔧 AI service temporarily unavailable. Please try again later."
  | .TIMEOUT => "⏳ Request timed out. Please try again."
  | .INVALID_RESPONSE => "⚠️ Unexpected response from AI service. Please try again."
  | .CONTENT_EXTRACTION_FAILED => "Could not extract content from this page. Try a different page."
  | .UNKNOWN => "❌ An unexpected error occurred. Please try again."

/-- The fixed user message of the HTTP 404 branch of `classifyError`
(popup.js line 182). -/
def MODEL_NOT_FOUND_MESSAGE : String :=
  "🔍 AI model not found. The selected model may not be available for your API key."

/-- A JS error value as inspected by `classifyError`: whether it is an
`instanceof TypeError`, its `name` and its `message` (absent fields are
`none`). -/
structure JsError where
  isTypeError : Bool
  name : Option String
  message : Option String
deriving DecidableEq, Repr

/-- The `{type, userMessage, debugInfo}` object returned by `classifyError`
(the CanonicalError of the spec). -/
structure CanonicalError where
  type : ErrorType
  userMessage : String
  debugInfo : String
deriving DecidableEq, Repr

/-- Does the character list start with the given pattern? (model of the
prefix step of JS `String.prototype.includes`). -/
def charsStartWith : List Char → List Char → Bool
  | _, [] => true
  | [], _ :: _ => false
  | c :: cs, p :: ps => c == p && charsStartWith cs ps

/-- Does the character list contain the pattern as a contiguous run? -/
def charsContain : List Char → List Char → Bool
  | [], pat => pat.isEmpty
  | c :: cs, pat => charsStartWith (c :: cs) pat || charsContain cs pat

/-- Model of JS `s.includes(pat)`. -/
def strIncludes (s pat : String) : Bool :=
  charsContain s.toList pat.toList

/-- JS `a || b` for an optional string `a`: `b` when `a` is absent or empty
(falsy), `a` otherwise. -/
def jsOrStr (a : Option String) (b : String) : String :=
  match a with
  | some s => if s = "" then b else s
  | none => b

/-- JS truthiness of an optional string field. -/
def jsTruthyStr : Option String → Bool
  | some s => s ≠ ""
  | none => false

/-- The final fallthrough of `classifyError` (popup.js lines 195-200):
kind UNKNOWN with `debugInfo = error?.message || "Unknown error occurred"`. -/
def classifyUnknownResult (error : JsError) : CanonicalError :=
  { type := .UNKNOWN
    userMessage := USER_MESSAGES .UNKNOWN
    debugInfo := jsOrStr error.message "Unknown error occurred" }

/-- `classifyError(error, httpStatus)` from popup.js lines 139-201. The
`httpStatus` block is entered only when the status is truthy (non-zero);
branch order matches the source: TypeError-with-fetch-message, AbortError,
then 400/401/403, 429, 404, ≥ 500, and the UNKNOWN fallthrough. -/
def classifyError (error : JsError) (httpStatus : Option Nat) : CanonicalError :=
  if error.isTypeError ∧
      (strIncludes (jsOrStr error.message "") "Failed to fetch" ∨
       strIncludes (jsOrStr error.message "") "fetch") then
    { type := .NETWORK_ERROR
      userMessage := USER_MESSAGES .NETWORK_ERROR
      debugInfo := jsOrStr error.message "" }
  else if error.name = some "AbortError" then
    { type := .TIMEOUT
      userMessage := USER_MESSAGES .TIMEOUT
      debugInfo := "Request aborted due to timeout" }
  else
    match httpStatus with
    | some s =>
      if s ≠ 0 then
        if s = 400 ∨ s = 401 ∨ s = 403 then
          { type := .UNAUTHORIZED
            userMessage := USER_MESSAGES .UNAUTHORIZED
            debugInfo := "HTTP " ++ toString s ++ ": Unauthorized / Bad API key" }
        else if s = 429 then
          { type := .RATE_LIMIT
            userMessage := USER_MESSAGES .RATE_LIMIT
            debugInfo := "HTTP 429: Rate limit exceeded" }
        else if s = 404 then
          { type := .UNKNOWN
            userMessage := MODEL_NOT_FOUND_MESSAGE
            debugInfo := "HTTP 404: Model not found" }
        else if 500 ≤ s then
          { type := .SERVER_ERROR
            userMessage := USER_MESSAGES .SERVER_ERROR
            debugInfo := "HTTP " ++ toString s ++ ": Server error" }
        else classifyUnknownResult error
      else classifyUnknownResult error
    | none => classifyUnknownResult error

/-- A JS value thrown by an adapter call, as inspected by the catch block of
the dispatch `generateSummary` (popup.js lines 532-564): `name`,
`instanceof TypeError`, `httpStatus` and `message` fields. -/
structure ThrownValue where
  isTypeError : Bool := false
  name : Option String := none
  httpStatus : Option Nat := none
  message : Option String := none
deriving DecidableEq, Repr

/-- Forget the fields `classifyError` does not inspect. -/
def ThrownValue.toJsError (v : ThrownValue) : JsError :=
  { isTypeError := v.isTypeError, name := v.name, message := v.message }

/-- The plain `{httpStatus, message}` object an adapter throws on a
non-success response (an HttpFailure): not a TypeError and without a
`name` field. -/
def HttpFailure.toThrown (s : Nat) (msg : Option String) : ThrownValue :=
  { isTypeError := false, name := none, httpStatus := some s, message := msg }

/-- The catch block of the dispatch `generateSummary` (popup.js lines
532-564): AbortError and TypeError are classified with no status; a thrown
value with a truthy `httpStatus` is classified as
`classifyError(new Error(error.message || "HTTP " + status), status)`, and
when the provider supplied a truthy message and the classified kind is
UNKNOWN, the user message is overwritten with `❌ ` followed by that
message; anything else falls to `classifyError(error, null)`. -/
def handleAdapterError (error : ThrownValue) : CanonicalError :=
  if error.name = some "AbortError" then
    classifyError error.toJsError none
  else if error.isTypeError then
    classifyError error.toJsError none
  else
    match error.httpStatus with
    | some s =>
      if s ≠ 0 then
        let errorInfo :=
          classifyError
            { isTypeError := false
              name := some "Error"
              message := some (jsOrStr error.message ("HTTP " ++ toString s)) }
            (some s)
        if jsTruthyStr error.message ∧ errorInfo.type = ErrorType.UNKNOWN then
          { errorInfo with userMessage := "❌ " ++ jsOrStr error.message "" }
        else errorInfo
      else classifyError error.toJsError none
    | none => classifyError error.toJsError none

/-- An extracted page image `{url, alt}` (popup.js `extractPageContent`). -/
structure ExtractedImage where
  url : String
  alt : String
deriving DecidableEq, Repr

/-- The static per-adapter fields the registry and dispatch read. A missing
`supportsMultimodal` property is `none` (JS `undefined`, falsy). -/
structure Provider where
  name : String
  apiEndpoint : String
  defaultModel : String
  supportsMultimodal : Option Bool
deriving DecidableEq, Repr

/-- The `OpenAIProvider` object header (src/unnamed/part_001 lines 6-10). -/
def OpenAIProvider : Provider :=
  { name := "OpenAI"
    apiEndpoint := "https://api.openai.com/v1/chat/completions"
    defaultModel := "gpt-4o-mini"
    supportsMultimodal := some true }

/-- The `GeminiProvider` object header (src/unnamed/part_000 lines 6-10). -/
def GeminiProvider : Provider :=
  { name := "Google Gemini"
    apiEndpoint := "https://generativelanguage.googleapis.com/v1beta/models"
    defaultModel := "gemini-2.0-flash"
    supportsMultimodal := some true }

/-- The `ClaudeProvider` object header (src/providers/claude.js lines 6-9):
it declares no `supportsMultimodal` property, hence `none`. -/
def ClaudeProvider : Provider :=
  { name := "Claude (Anthropic)"
    apiEndpoint := "https://api.anthropic.com/v1/messages"
    defaultModel := "claude-sonnet-4-6"
    supportsMultimodal := none }

/-- JS truthiness of an optional boolean property (absent is falsy). -/
def jsTruthyFlag : Option Bool → Bool
  | some b => b
  | none => false

/-- The provider registry object `{openai, gemini, claude}` built in the
dispatch `generateSummary` (popup.js lines 499-503). -/
def providersLookup (provider : String) : Option Provider :=
  if provider = "openai" then some OpenAIProvider
  else if provider = "gemini" then some GeminiProvider
  else if provider = "claude" then some ClaudeProvider
  else none

/-- popup.js line 515: `aiProvider.supportsMultimodal ? images : []`. -/
def imagesToPass (aiProvider : Provider) (images : List ExtractedImage) :
    List ExtractedImage :=
  if jsTruthyFlag aiProvider.supportsMultimodal then images else []

/-- The timeout that arms the dispatch AbortController
(popup.js line 519: `setTimeout(() => controller.abort(), 30000)`). -/
def dispatchTimeoutMs : Nat := 30000

/-- A JSON value as delivered by `response.json()`. Field and index access
below model access on objects and arrays (the shapes the provider
envelopes use). -/
inductive Json where
  | null
  | bool (b : Bool)
  | num (n : Int)
  | str (s : String)
  | arr (elems : List Json)
  | obj (fields : List (String × Json))

/-- Object field access (`undefined` on non-objects / missing keys). -/
def Json.getField : Json → String → Option Json
  | .obj fields, key => (fields.find? (fun p => p.fst == key)).map Prod.snd
  | _, _ => none

/-- Array index access (`undefined` on non-arrays / out of range). -/
def Json.index : Json → Nat → Option Json
  | .arr elems, i => elems[i]?
  | _, _ => none

/-- JS truthiness of a JSON value. -/
def Json.truthy : Json → Bool
  | .null => false
  | .bool b => b
  | .num n => n ≠ 0
  | .str s => s ≠ ""
  | .arr _ => true
  | .obj _ => true

/-- Truthiness of the result of an optional-chaining access. -/
def optTruthy : Option Json → Bool
  | none => false
  | some v => v.truthy

/-- What one adapter call produces: the parsed return value, or a thrown
JS value. -/
inductive AdapterResult where
  | ok (value : Json)
  | thrown (v : ThrownValue)

/-- The fetch response an adapter observes: `ok`, `status`, and the body
(`none` when `response.json()` rejects because the body is not JSON). -/
structure HttpResponse where
  ok : Bool
  status : Nat
  body : Option Json

/-- The exception `response.json()` raises on a non-JSON body on the
success path (a SyntaxError, which carries no `httpStatus`). -/
def jsonParseFailure : ThrownValue :=
  { isTypeError := false
    name := some "SyntaxError"
    httpStatus := none
    message := some "Unexpected end of JSON input" }

/-- `errorData.error?.message` extracted from a non-success body, when the
field is present and a string (src/providers/claude.js lines 68-75). -/
def apiErrorMessage (body : Option Json) : Option String :=
  match body with
  | none => none
  | some b =>
    match (b.getField "error").bind (fun e => e.getField "message") with
    | some (Json.str s) => some s
    | _ => none

/-- Gemini writes `errorData.error?.message || null` (part_000 line 112):
a falsy (empty) message becomes `null`. -/
def apiErrorMessageOrNull (body : Option Json) : Option String :=
  match apiErrorMessage body with
  | some s => if s = "" then none else some s
  | none => none

/-- The fixed path of the Claude response envelope:
`data.content?.[0]?.text` (src/providers/claude.js line 82). -/
def claudeResponseText (data : Json) : Option Json :=
  ((data.getField "content").bind (fun c => c.index 0)).bind
    (fun item => item.getField "text")

/-- The fixed path of the Gemini response envelope:
`data.candidates?.[0]?.content?.parts?.[0]?.text` (part_000 line 123). -/
def geminiResponseText (data : Json) : Option Json :=
  (((((data.getField "candidates").bind (fun c => c.index 0)).bind
    (fun c => c.getField "content")).bind
    (fun c => c.getField "parts")).bind
    (fun p => p.index 0)).bind
    (fun p => p.getField "text")

/-- The fixed path of the OpenAI response envelope:
`data.choices?.[0]?.message?.content` (part_001 line 82). -/
def openaiResponseText (data : Json) : Option Json :=
  (((data.getField "choices").bind (fun c => c.index 0)).bind
    (fun c => c.getField "message")).bind
    (fun m => m.getField "content")

/-- Response handling of `ClaudeProvider.generateSummary`
(src/providers/claude.js lines 67-87): non-ok throws
`{httpStatus: response.status, message: apiErrorMessage}`; an ok response
whose body lacks a truthy text at the fixed path throws
`{httpStatus: 500, message: "Invalid response structure from Claude"}`. -/
def ClaudeProvider_generateSummary (resp : HttpResponse) : AdapterResult :=
  if resp.ok = false then
    .thrown (HttpFailure.toThrown resp.status (apiErrorMessage resp.body))
  else
    match resp.body with
    | none => .thrown jsonParseFailure
    | some data =>
      if optTruthy (claudeResponseText data) then
        .ok ((claudeResponseText data).getD Json.null)
      else
        .thrown (HttpFailure.toThrown 500 (some "Invalid response structure from Claude"))

/-- Response handling of `GeminiProvider.generateSummary`
(src/unnamed/part_000 lines 108-128). -/
def GeminiProvider_generateSummary (resp : HttpResponse) : AdapterResult :=
  if resp.ok = false then
    .thrown (HttpFailure.toThrown resp.status (apiErrorMessageOrNull resp.body))
  else
    match resp.body with
    | none => .thrown jsonParseFailure
    | some data =>
      if optTruthy (geminiResponseText data) then
        .ok ((geminiResponseText data).getD Json.null)
      else
        .thrown (HttpFailure.toThrown 500 (some "Invalid response structure from Gemini"))

/-- Response handling of `OpenAIProvider.generateSummary`
(src/unnamed/part_001 lines 68-87). -/
def OpenAIProvider_generateSummary (resp : HttpResponse) : AdapterResult :=
  if resp.ok = false then
    .thrown (HttpFailure.toThrown resp.status (apiErrorMessage resp.body))
  else
    match resp.body with
    | none => .thrown jsonParseFailure
    | some data =>
      if optTruthy (openaiResponseText data) then
        .ok ((openaiResponseText data).getD Json.null)
      else
        .thrown (HttpFailure.toThrown 500 (some "Invalid response structure from OpenAI"))

/-- What the dispatch `generateSummary` yields to its caller. -/
inductive DispatchResult where
  | success (value : Json)
  | failure (e : CanonicalError)

/-- The dispatch `generateSummary(provider, ...)` of popup.js lines
497-568, with the adapter call abstracted as `call` (applied to the
resolved provider and the capability-filtered image list): an unknown
provider id throws the `Unknown AI provider` CanonicalError before any
adapter is invoked; an adapter success is returned unchanged; a thrown
value goes through the catch block `handleAdapterError` exactly once. -/
def generateSummary (provider : String) (images : List ExtractedImage)
    (call : Provider → List ExtractedImage → AdapterResult) : DispatchResult :=
  match providersLookup provider with
  | none =>
    .failure
      { type := .UNKNOWN
        userMessage := "Unknown AI provider: " ++ provider
        debugInfo := "Provider " ++ provider ++ " not found" }
  | some aiProvider =>
    match call aiProvider (imagesToPass aiProvider images) with
    | .ok v => .success v
    | .thrown t => .failure (handleAdapterError t)

/-- What the catch block of `summarizePage` receives: either an object
already carrying `type`/`userMessage` (a CanonicalError), or a raw error. -/
inductive CaughtShape where
  | classified (c : CanonicalError)
  | raw (e : JsError)

/-- The catch block of `summarizePage` (popup.js lines 406-425): an object
with truthy `type` and `userMessage` is shown directly (second component
`false`: classification not invoked); any other error is classified once
(second component `true`). -/
def summarizePageCatch : CaughtShape → String × Bool
  | .classified c =>
    if errorTypeStr c.type ≠ "" ∧ c.userMessage ≠ "" then
      (c.userMessage, false)
    else
      ((classifyError { isTypeError := false, name := none, message := none } none).userMessage,
       true)
  | .raw e => ((classifyError e none).userMessage, true)

/-- The user-prompt content of the Claude request body
(src/providers/claude.js lines 38-47): a list of parts when images are
present, the plain prompt string otherwise. -/
inductive ClaudeContentPart where
  | text (t : String)
  | image (url : String)
deriving DecidableEq, Repr

/-- The two shapes `userContent` can take in `ClaudeProvider.generateSummary`. -/
inductive ClaudeUserContent where
  | plain (text : String)
  | parts (ps : List ClaudeContentPart)
deriving DecidableEq, Repr

/-- `userContent` construction in `ClaudeProvider.generateSummary`
(src/providers/claude.js lines 38-47). -/
def claudeUserContent (userPrompt : String) (images : List ExtractedImage) :
    ClaudeUserContent :=
  if images.length > 0 then
    .parts (ClaudeContentPart.text userPrompt ::
      images.map (fun img => ClaudeContentPart.image img.url))
  else .plain userPrompt

/-- The `{data, mimeType}` result of a successful `_fetchImageAsBase64`
(src/unnamed/part_000 lines 17-36); any failure yields `none`. -/
structure ImageData where
  data : String
  mimeType : String
deriving DecidableEq, Repr

/-- A part of the Gemini request `contents[0].parts` list. -/
inductive GeminiPart where
  | text (t : String)
  | inline_data (mime_type : String) (data : String)
deriving DecidableEq, Repr

/-- The 3 MB image payload cap of part_000 line 73, in quarter-byte units:
the source compares float values `payloadBytes + imgData.data.length * 0.75`
against `3 * 1024 * 1024`; all quantities are integer multiples of 0.25 and
far below 2^53, so the float arithmetic is exact and scaling by 4 gives a
faithful integer model. -/
def MAX_IMAGE_PAYLOAD_QB : Nat := 4 * (3 * 1024 * 1024)

/-- The attachment loop of `GeminiProvider.generateSummary`
(src/unnamed/part_000 lines 74-86): failed fetches (`none`) are skipped;
an image that would push the running payload over the cap stops the loop
(`break`); attached images keep the order of `imageResults`. The second
argument is the running payload in quarter-bytes. -/
def geminiAttachLoop : List (Option ImageData) → Nat → List GeminiPart
  | [], _ => []
  | none :: rest, payload => geminiAttachLoop rest payload
  | some imgData :: rest, payload =>
    if payload + 3 * imgData.data.length > MAX_IMAGE_PAYLOAD_QB then []
    else
      GeminiPart.inline_data imgData.mimeType imgData.data ::
        geminiAttachLoop rest (payload + 3 * imgData.data.length)

/-- The `parts` list built by `GeminiProvider.generateSummary`
(src/unnamed/part_000 lines 63-91): the text part first; when images are
present, each is fetched (`fetchImage` models `_fetchImageAsBase64`, with
`Promise.all` keeping the input order) and the results are attached by the
capped loop; with no image attached the request proceeds text-only. -/
def geminiBuildParts (promptText : String) (images : List ExtractedImage)
    (fetchImage : String → Option ImageData) : List GeminiPart :=
  let parts := [GeminiPart.text promptText]
  if images.length > 0 then
    let imageResults := images.map (fun img => fetchImage img.url)
    parts ++ geminiAttachLoop imageResults 0
  else parts

/-! ## Helper lemmas -/

/-- Every `ERROR_TYPES` string value is non-empty (truthy). -/
theorem errorTypeStr_ne_empty (t : ErrorType) : errorTypeStr t ≠ "" := by
  cases t <;> decide

/-- Every fixed user message is non-empty. -/
theorem USER_MESSAGES_ne_empty (t : ErrorType) : USER_MESSAGES t ≠ "" := by
  cases t <;> decide

/-- A string with a non-empty left part is non-empty. -/
theorem string_append_ne_empty (a b : String) (ha : a ≠ "") : a ++ b ≠ "" := by
  intro h
  apply ha
  have hl := congrArg String.length h
  rw [String.length_append] at hl
  have : a.length = 0 := by
    have : String.length "" = 0 := rfl
    omega
  cases a with
  | mk data => cases data with
    | nil => rfl
    | cons c cs => simp [String.length, String.Pos.byteIdx] at this

/-- `classifyError` shows either the fixed message of its kind, or the
model-not-found message (and then the kind is UNKNOWN). -/
theorem classifyError_userMessage_spec (e : JsError) (h : Option Nat) :
    (classifyError e h).userMessage = USER_MESSAGES (classifyError e h).type ∨
    ((classifyError e h).userMessage = MODEL_NOT_FOUND_MESSAGE ∧
      (classifyError e h).type = ErrorType.UNKNOWN) := by
  unfold classifyError classifyUnknownResult
  repeat first
  | (left; rfl)
  | (right; exact ⟨rfl, rfl⟩)
  | split

/-- `classifyError` never returns an empty user message. -/
theorem classifyError_userMessage_ne_empty (e : JsError) (h : Option Nat) :
    (classifyError e h).userMessage ≠ "" := by
  rcases classifyError_userMessage_spec e h with hm | ⟨hm, _⟩ <;> rw [hm]
  · exact USER_MESSAGES_ne_empty _
  · decide

/-- The dispatch catch block never produces an empty user message. -/
theorem handleAdapterError_userMessage_ne_empty (v : ThrownValue) :
    (handleAdapterError v).userMessage ≠ "" := by
  unfold handleAdapterError
  split
  · exact classifyError_userMessage_ne_empty _ _
  split
  · exact classifyError_userMessage_ne_empty _ _
  split
  · split
    · dsimp only
      split
      · exact string_append_ne_empty _ _ (by decide)
      · exact classifyError_userMessage_ne_empty _ _
    · exact classifyError_userMessage_ne_empty _ _
  · exact classifyError_userMessage_ne_empty _ _

/-- Full case analysis of the dispatch catch block on an HttpFailure with a
truthy (non-zero) status: the four status ranges give their fixed
CanonicalError, and both UNKNOWN outcomes (404 model-not-found and the
generic fallthrough) are overwritten with the provider message when one is
present. -/
theorem handleAdapterError_http_cases (s : Nat) (msg : Option String) (hs : s ≠ 0) :
    handleAdapterError (HttpFailure.toThrown s msg) =
      if s = 400 ∨ s = 401 ∨ s = 403 then
        { type := .UNAUTHORIZED
          userMessage := USER_MESSAGES .UNAUTHORIZED
          debugInfo := "HTTP " ++ toString s ++ ": Unauthorized / Bad API key" }
      else if s = 429 then
        { type := .RATE_LIMIT
          userMessage := USER_MESSAGES .RATE_LIMIT
          debugInfo := "HTTP 429: Rate limit exceeded" }
      else if s = 404 then
        { type := .UNKNOWN
          userMessage :=
            if jsTruthyStr msg then "❌ " ++ jsOrStr msg "" else MODEL_NOT_FOUND_MESSAGE
          debugInfo := "HTTP 404: Model not found" }
      else if 500 ≤ s then
        { type := .SERVER_ERROR
          userMessage := USER_MESSAGES .SERVER_ERROR
          debugInfo := "HTTP " ++ toString s ++ ": Server error" }
      else
        { type := .UNKNOWN
          userMessage :=
            if jsTruthyStr msg then "❌ " ++ jsOrStr msg "" else USER_MESSAGES .UNKNOWN
          debugInfo := jsOrStr (some (jsOrStr msg ("HTTP " ++ toString s)))
            "Unknown error occurred" } := by
  unfold handleAdapterError HttpFailure.toThrown ThrownValue.toJsError
  unfold classifyError classifyUnknownResult
  simp only [Bool.false_eq_true, false_and, if_false, reduceCtorEq, if_neg,
    Option.some.injEq, String.reduceEq, ite_false, hs, ne_eq, not_false_iff, ite_true,
    if_true, not_false_eq_true]
  split
  · rename_i h1
    simp only [h1, if_true, ite_true]
    split <;> rename_i hc
    · exact absurd hc.2 (by simp)
    · rfl
  · rename_i h1
    split
    · rename_i h2
      simp only [h1, h2, if_false, if_true, ite_true, ite_false]
      split <;> rename_i hc
      · exact absurd hc.2 (by simp)
      · rfl
    · rename_i h2
      split
      · rename_i h3
        simp only [h1, h2, h3, if_false, if_true, ite_true, ite_false]
        split <;> rename_i hc
        · simp only [hc.1, if_true, ite_true]
        · rw [if_neg (fun hmt => hc ⟨hmt, trivial⟩)]
      · rename_i h3
        split
        · rename_i h4
          simp only [h1, h2, h3, h4, if_false, if_true, ite_true, ite_false]
          split <;> rename_i hc
          · exact absurd hc.2 (by simp)
          · rfl
        · rename_i h4
          simp only [h1, h2, h3, h4, if_false, ite_false]
          split <;> rename_i hc
          · simp only [hc.1, if_true, ite_true]
          · rw [if_neg (fun hmt => hc ⟨hmt, trivial⟩)]

/-! ## Claim theorems -/

/-- C1: for every HttpFailure carrying an httpStatus, the error classifier
maps status 400, 401, or 403 to kind UNAUTHORIZED, status 429 to kind
RATE_LIMIT, and any status ≥ 500 to kind SERVER_ERROR, each with its fixed
user message, regardless of the response body content (the provider
message `msg` is arbitrary). -/
theorem c1_classifier_maps_http_statuses (s : Nat) (msg : Option String) :
    ((s = 400 ∨ s = 401 ∨ s = 403) →
      handleAdapterError (HttpFailure.toThrown s msg) =
        { type := .UNAUTHORIZED
          userMessage := USER_MESSAGES .UNAUTHORIZED
          debugInfo := "HTTP " ++ toString s ++ ": Unauthorized / Bad API key" }) ∧
    (s = 429 →
      handleAdapterError (HttpFailure.toThrown s msg) =
        { type := .RATE_LIMIT
          userMessage := USER_MESSAGES .RATE_LIMIT
          debugInfo := "HTTP 429: Rate limit exceeded" }) ∧
    (500 ≤ s →
      handleAdapterError (HttpFailure.toThrown s msg) =
        { type := .SERVER_ERROR
          userMessage := USER_MESSAGES .SERVER_ERROR
          debugInfo := "HTTP " ++ toString s ++ ": Server error" }) := by
  refine ⟨fun h => ?_, fun h => ?_, fun h => ?_⟩
  · rw [handleAdapterError_http_cases s msg (by omega), if_pos h]
  · subst h
    rw [handleAdapterError_http_cases 429 msg (by omega), if_neg (by omega), if_pos rfl]
  · rw [handleAdapterError_http_cases s msg (by omega), if_neg (by omega),
      if_neg (by omega), if_neg (by omega), if_pos h]

/-- C1 witness: concrete instances at statuses 401, 429 and 503. -/
theorem c1_classifier_maps_http_statuses_witness :
    handleAdapterError (HttpFailure.toThrown 401 (some "bad key body")) =
      { type := .UNAUTHORIZED
        userMessage := USER_MESSAGES .UNAUTHORIZED
        debugInfo := "HTTP 401: Unauthorized / Bad API key" } ∧
    handleAdapterError (HttpFailure.toThrown 429 (some "slow down")) =
      { type := .RATE_LIMIT
        userMessage := USER_MESSAGES .RATE_LIMIT
        debugInfo := "HTTP 429: Rate limit exceeded" } ∧
    handleAdapterError (HttpFailure.toThrown 503 (some "overloaded")) =
      { type := .SERVER_ERROR
        userMessage := USER_MESSAGES .SERVER_ERROR
        debugInfo := "HTTP 503: Server error" } :=
  ⟨(c1_classifier_maps_http_statuses 401 (some "bad key body")).1 (by decide),
   (c1_classifier_maps_http_statuses 429 (some "slow down")).2.1 rfl,
   (c1_classifier_maps_http_statuses 503 (some "overloaded")).2.2 (by decide)⟩

/-- C2: an error object that already carries a (truthy) kind and
userMessage is passed through the `summarizePage` catch block unchanged,
with classification not invoked on it again (second component `false`);
in particular every failure produced by the dispatch `generateSummary` is
passed through this way, so no failure is classified twice. -/
theorem c2_classified_error_passes_through :
    (∀ c : CanonicalError, c.userMessage ≠ "" →
      summarizePageCatch (CaughtShape.classified c) = (c.userMessage, false)) ∧
    (∀ (provider : String) (images : List ExtractedImage)
        (call : Provider → List ExtractedImage → AdapterResult)
        (c : CanonicalError),
      generateSummary provider images call = DispatchResult.failure c →
      summarizePageCatch (CaughtShape.classified c) = (c.userMessage, false)) := by
  have pass : ∀ c : CanonicalError, c.userMessage ≠ "" →
      summarizePageCatch (CaughtShape.classified c) = (c.userMessage, false) := by
    intro c h
    simp only [summarizePageCatch]
    rw [if_pos ⟨errorTypeStr_ne_empty c.type, h⟩]
  refine ⟨pass, ?_⟩
  intro provider images call c hfail
  apply pass
  unfold generateSummary at hfail
  cases hp : providersLookup provider with
  | none =>
    rw [hp] at hfail
    dsimp only at hfail
    cases hfail
    exact string_append_ne_empty _ _ (by decide)
  | some aiProvider =>
    rw [hp] at hfail
    dsimp only at hfail
    cases hcall : call aiProvider (imagesToPass aiProvider images) with
    | ok v =>
      rw [hcall] at hfail
      dsimp only at hfail
      cases hfail
    | thrown t =>
      rw [hcall] at hfail
      dsimp only at hfail
      cases hfail
      exact handleAdapterError_userMessage_ne_empty t

/-- C2 witness: a concrete classified error is shown unchanged, and a
concrete dispatch failure (HTTP 429 from the Claude adapter) is shown
unchanged as well. -/
theorem c2_classified_error_passes_through_witness :
    summarizePageCatch (CaughtShape.classified
      { type := .RATE_LIMIT
        userMessage := USER_MESSAGES .RATE_LIMIT
        debugInfo := "HTTP 429: Rate limit exceeded" }) =
      (USER_MESSAGES .RATE_LIMIT, false) ∧
    summarizePageCatch (CaughtShape.classified
      (handleAdapterError (HttpFailure.toThrown 429 none))) =
      ((handleAdapterError (HttpFailure.toThrown 429 none)).userMessage, false) :=
  ⟨c2_classified_error_passes_through.1 _ (by decide),
   c2_classified_error_passes_through.2 "claude" []
     (fun _ _ => AdapterResult.thrown (HttpFailure.toThrown 429 none)) _ rfl⟩

/-- C3 counterexample: an HttpFailure with status 404 carrying the provider
message "The requested model does not exist" does NOT surface the fixed
model-not-found user message — the dispatch catch block overwrites it with
the provider wording (the classified kind is still UNKNOWN). -/
theorem c3_counterexample_404_message_override :
    (handleAdapterError
      (HttpFailure.toThrown 404 (some "The requested model does not exist"))).type =
        ErrorType.UNKNOWN ∧
    (handleAdapterError
      (HttpFailure.toThrown 404 (some "The requested model does not exist"))).userMessage =
        "❌ The requested model does not exist" ∧
    "❌ The requested model does not exist" ≠ MODEL_NOT_FOUND_MESSAGE := by
  decide

/-- C3 amended: an HttpFailure with status 404 is always classified to kind
UNKNOWN; the fixed model-not-found user message is shown only when the
failure carries no truthy provider message — a non-empty provider message
replaces it with `❌ ` followed by that message. -/
theorem c3_amended_404_classification (msg : Option String) :
    (handleAdapterError (HttpFailure.toThrown 404 msg)).type = ErrorType.UNKNOWN ∧
    (jsTruthyStr msg = false →
      (handleAdapterError (HttpFailure.toThrown 404 msg)).userMessage =
        MODEL_NOT_FOUND_MESSAGE) ∧
    (∀ m : String, msg = some m → m ≠ "" →
      (handleAdapterError (HttpFailure.toThrown 404 msg)).userMessage = "❌ " ++ m) := by
  rw [handleAdapterError_http_cases 404 msg (by omega), if_neg (by omega),
    if_neg (by omega), if_pos rfl]
  refine ⟨rfl, fun h => ?_, fun m hm hne => ?_⟩
  · simp only [h, Bool.false_eq_true, if_false, ite_false]
  · subst hm
    have ht : jsTruthyStr (some m) = true := by
      simp [jsTruthyStr, hne]
    simp only [ht, if_true, ite_true, jsOrStr, hne, ite_false, if_neg hne]

/-- C3 amended witness: with no provider message the fixed model-not-found
message is shown; with a provider message it is replaced. -/
theorem c3_amended_404_classification_witness :
    (handleAdapterError (HttpFailure.toThrown 404 none)).type = ErrorType.UNKNOWN ∧
    (handleAdapterError (HttpFailure.toThrown 404 none)).userMessage =
      MODEL_NOT_FOUND_MESSAGE ∧
    (handleAdapterError (HttpFailure.toThrown 404 (some "no such model"))).userMessage =
      "❌ no such model" :=
  ⟨(c3_amended_404_classification none).1,
   (c3_amended_404_classification none).2.1 (by decide),
   (c3_amended_404_classification (some "no such model")).2.2 "no such model" rfl
     (by decide)⟩

/-- C4 counterexample: for an HttpFailure classified to generic UNKNOWN
(status 418, message "teapot") the user message is `❌ teapot`, which does
not contain the generic UNKNOWN user message at all — the provider message
replaces the generic message rather than being appended to it; moreover at
status 404 (where the more specific model-not-found rule matched) the
provider wording still appears verbatim in the user message. -/
theorem c4_counterexample_message_replaces_not_appends :
    (handleAdapterError (HttpFailure.toThrown 418 (some "teapot"))).type =
      ErrorType.UNKNOWN ∧
    (handleAdapterError (HttpFailure.toThrown 418 (some "teapot"))).userMessage =
      "❌ teapot" ∧
    strIncludes "❌ teapot" (USER_MESSAGES ErrorType.UNKNOWN) = false ∧
    strIncludes
      (handleAdapterError (HttpFailure.toThrown 404 (some "secret detail"))).userMessage
      "secret detail" = true := by
  decide

/-- C4 amended: HttpFailures with status 400/401/403, 429 or ≥ 500 always
surface the fixed generic message for their kind, never the provider
wording; but whenever the classified kind is UNKNOWN — both the generic
fallthrough and the 404 model-not-found variant — a truthy provider
message REPLACES the user message with `❌ ` followed by that message
(it is not appended to the generic UNKNOWN message); failures classified
to any non-UNKNOWN kind show exactly the fixed message of that kind. -/
theorem c4_amended_message_surfacing (s : Nat) (msg : Option String) :
    ((s = 400 ∨ s = 401 ∨ s = 403) →
      (handleAdapterError (HttpFailure.toThrown s msg)).userMessage =
        USER_MESSAGES .UNAUTHORIZED) ∧
    (s = 429 →
      (handleAdapterError (HttpFailure.toThrown s msg)).userMessage =
        USER_MESSAGES .RATE_LIMIT) ∧
    (500 ≤ s →
      (handleAdapterError (HttpFailure.toThrown s msg)).userMessage =
        USER_MESSAGES .SERVER_ERROR) ∧
    (∀ m : String, msg = some m → m ≠ "" → s ≠ 0 →
      (handleAdapterError (HttpFailure.toThrown s msg)).type = ErrorType.UNKNOWN →
      (handleAdapterError (HttpFailure.toThrown s msg)).userMessage = "❌ " ++ m) ∧
    (s ≠ 0 →
      (handleAdapterError (HttpFailure.toThrown s msg)).type ≠ ErrorType.UNKNOWN →
      (handleAdapterError (HttpFailure.toThrown s msg)).userMessage =
        USER_MESSAGES (handleAdapterError (HttpFailure.toThrown s msg)).type) := by
  refine ⟨fun h => ?_, fun h => ?_, fun h => ?_, fun m hm hne hs0 htype => ?_,
    fun hs0 htype => ?_⟩
  · rw [handleAdapterError_http_cases s msg (by omega), if_pos h]
  · subst h
    rw [handleAdapterError_http_cases 429 msg (by omega), if_neg (by omega), if_pos rfl]
  · rw [handleAdapterError_http_cases s msg (by omega), if_neg (by omega),
      if_neg (by omega), if_neg (by omega), if_pos h]
  · subst hm
    rw [handleAdapterError_http_cases s (some m) hs0] at htype ⊢
    by_cases h1 : s = 400 ∨ s = 401 ∨ s = 403
    · rw [if_pos h1] at htype; simp at htype
    · by_cases h2 : s = 429
      · rw [if_neg h1, if_pos h2] at htype; simp at htype
      · by_cases h3 : s = 404
        · rw [if_neg h1, if_neg h2, if_pos h3]
          have ht : jsTruthyStr (some m) = true := by simp [jsTruthyStr, hne]
          simp only [ht, ite_true, jsOrStr, hne, ite_false]
        · by_cases h4 : 500 ≤ s
          · rw [if_neg h1, if_neg h2, if_neg h3, if_pos h4] at htype; simp at htype
          · rw [if_neg h1, if_neg h2, if_neg h3, if_neg h4]
            have ht : jsTruthyStr (some m) = true := by simp [jsTruthyStr, hne]
            simp only [ht, ite_true, jsOrStr, hne, ite_false]
  · rw [handleAdapterError_http_cases s msg hs0] at htype ⊢
    by_cases h1 : s = 400 ∨ s = 401 ∨ s = 403
    · rw [if_pos h1]
    · by_cases h2 : s = 429
      · rw [if_neg h1, if_pos h2]
      · by_cases h3 : s = 404
        · rw [if_neg h1, if_neg h2, if_pos h3] at htype
          exact absurd rfl htype
        · by_cases h4 : 500 ≤ s
          · rw [if_neg h1, if_neg h2, if_neg h3, if_pos h4]
          · rw [if_neg h1, if_neg h2, if_neg h3, if_neg h4] at htype
            exact absurd rfl htype

/-- C4 amended witness: concrete instances — 401 and 500 show fixed
messages regardless of provider text; 418 (generic UNKNOWN) surfaces the
provider text. -/
theorem c4_amended_message_surfacing_witness :
    (handleAdapterError (HttpFailure.toThrown 401 (some "raw provider text"))).userMessage =
      USER_MESSAGES .UNAUTHORIZED ∧
    (handleAdapterError (HttpFailure.toThrown 500 (some "raw provider text"))).userMessage =
      USER_MESSAGES .SERVER_ERROR ∧
    (handleAdapterError (HttpFailure.toThrown 418 (some "hint text"))).userMessage =
      "❌ hint text" :=
  ⟨(c4_amended_message_surfacing 401 (some "raw provider text")).1 (by decide),
   (c4_amended_message_surfacing 500 (some "raw provider text")).2.2.1 (by decide),
   (c4_amended_message_surfacing 418 (some "hint text")).2.2.2.1 "hint text" rfl
     (by decide) (by decide) (by decide)⟩

/-- C5 counterexample: an ok response whose parsed body lacks the text
field at the fixed path (here the empty JSON object) makes the Claude
adapter throw the synthetic 500 HttpFailure, and the dispatch catch block
classifies that failure as SERVER_ERROR — not as the generic UNKNOWN the
claim states. -/
theorem c5_counterexample_invalid_structure_is_server_error :
    ClaudeProvider_generateSummary { ok := true, status := 200, body := some (Json.obj []) } =
      AdapterResult.thrown
        (HttpFailure.toThrown 500 (some "Invalid response structure from Claude")) ∧
    (handleAdapterError
      (HttpFailure.toThrown 500 (some "Invalid response structure from Claude"))).type =
        ErrorType.SERVER_ERROR ∧
    ErrorType.SERVER_ERROR ≠ ErrorType.UNKNOWN :=
  ⟨rfl, by decide, by decide⟩

/-- C5 amended: failure evidence not matched by the earlier classification
rules (not an abort, not a TypeError, no truthy HTTP status) is classified
as generic UNKNOWN; but a provider response that parses without the
expected text field at its fixed path raises a synthetic 500 HttpFailure
and is therefore classified as SERVER_ERROR, not UNKNOWN. -/
theorem c5_amended_unknown_fallback (e : JsError) (data : Json) :
    (e.isTypeError = false → e.name ≠ some "AbortError" →
      (classifyError e none).type = ErrorType.UNKNOWN) ∧
    (claudeResponseText data = none →
      ClaudeProvider_generateSummary { ok := true, status := 200, body := some data } =
        AdapterResult.thrown
          (HttpFailure.toThrown 500 (some "Invalid response structure from Claude")) ∧
      (handleAdapterError
        (HttpFailure.toThrown 500 (some "Invalid response structure from Claude"))).type =
          ErrorType.SERVER_ERROR) := by
  constructor
  · intro he hn
    unfold classifyError
    rw [if_neg (by simp [he]), if_neg hn]
    rfl
  · intro hpath
    refine ⟨?_, by decide⟩
    unfold ClaudeProvider_generateSummary
    simp [hpath, optTruthy]

/-- C5 amended witness: a non-HTTP error object is classified UNKNOWN, and
a concrete structureless body produces the synthetic 500 throw. -/
theorem c5_amended_unknown_fallback_witness :
    (classifyError { isTypeError := false, name := none, message := some "boom" } none).type =
      ErrorType.UNKNOWN ∧
    ClaudeProvider_generateSummary
      { ok := true, status := 200, body := some (Json.obj [("foo", Json.num 1)]) } =
      AdapterResult.thrown
        (HttpFailure.toThrown 500 (some "Invalid response structure from Claude")) :=
  ⟨(c5_amended_unknown_fallback
      { isTypeError := false, name := none, message := some "boom" }
      (Json.obj [("foo", Json.num 1)])).1 rfl (by decide),
   ((c5_amended_unknown_fallback
      { isTypeError := false, name := none, message := some "boom" }
      (Json.obj [("foo", Json.num 1)])).2 rfl).1⟩

/-- C6: for every adapter (OpenAI, Gemini, Claude), an ok HTTP response
whose parsed body lacks the text field at that provider's fixed response
path makes `generateSummary` throw an HttpFailure with the synthetic
status 500 and the fixed invalid-response-structure message of that
provider. -/
theorem c6_invalid_structure_synthetic_500 (s1 s2 s3 : Nat) (d1 d2 d3 : Json) :
    (claudeResponseText d1 = none →
      ClaudeProvider_generateSummary { ok := true, status := s1, body := some d1 } =
        AdapterResult.thrown
          (HttpFailure.toThrown 500 (some "Invalid response structure from Claude"))) ∧
    (geminiResponseText d2 = none →
      GeminiProvider_generateSummary { ok := true, status := s2, body := some d2 } =
        AdapterResult.thrown
          (HttpFailure.toThrown 500 (some "Invalid response structure from Gemini"))) ∧
    (openaiResponseText d3 = none →
      OpenAIProvider_generateSummary { ok := true, status := s3, body := some d3 } =
        AdapterResult.thrown
          (HttpFailure.toThrown 500 (some "Invalid response structure from OpenAI"))) := by
  refine ⟨fun h => ?_, fun h => ?_, fun h => ?_⟩
  · unfold ClaudeProvider_generateSummary
    simp [h, optTruthy]
  · unfold GeminiProvider_generateSummary
    simp [h, optTruthy]
  · unfold OpenAIProvider_generateSummary
    simp [h, optTruthy]

/-- C6 witness: the empty JSON object lacks all three fixed paths and
triggers the synthetic 500 throw in each adapter. -/
theorem c6_invalid_structure_synthetic_500_witness :
    ClaudeProvider_generateSummary { ok := true, status := 200, body := some (Json.obj []) } =
      AdapterResult.thrown
        (HttpFailure.toThrown 500 (some "Invalid response structure from Claude")) ∧
    GeminiProvider_generateSummary { ok := true, status := 200, body := some (Json.obj []) } =
      AdapterResult.thrown
        (HttpFailure.toThrown 500 (some "Invalid response structure from Gemini")) ∧
    OpenAIProvider_generateSummary { ok := true, status := 200, body := some (Json.obj []) } =
      AdapterResult.thrown
        (HttpFailure.toThrown 500 (some "Invalid response structure from OpenAI")) :=
  ⟨(c6_invalid_structure_synthetic_500 200 200 200
      (Json.obj []) (Json.obj []) (Json.obj [])).1 rfl,
   (c6_invalid_structure_synthetic_500 200 200 200
      (Json.obj []) (Json.obj []) (Json.obj [])).2.1 rfl,
   (c6_invalid_structure_synthetic_500 200 200 200
      (Json.obj []) (Json.obj []) (Json.obj [])).2.2 rfl⟩

/-- C7: the dispatch timeout is armed at 30000 ms (30 seconds) from
dispatch start, and an in-flight call aborted by that signal (an
AbortError, which is not a TypeError) is classified to kind TIMEOUT with
the fixed timeout user message. -/
theorem c7_abort_classified_timeout (v : ThrownValue) :
    (v.name = some "AbortError" → v.isTypeError = false →
      handleAdapterError v =
        { type := .TIMEOUT
          userMessage := USER_MESSAGES .TIMEOUT
          debugInfo := "Request aborted due to timeout" }) ∧
    dispatchTimeoutMs = 30000 := by
  refine ⟨fun hn ht => ?_, rfl⟩
  unfold handleAdapterError
  rw [if_pos hn]
  unfold classifyError
  rw [if_neg (by simp [ThrownValue.toJsError, ht]),
    if_pos (show (ThrownValue.toJsError v).name = some "AbortError" by
      simp [ThrownValue.toJsError, hn])]

/-- C7 witness: a plain AbortError value. -/
theorem c7_abort_classified_timeout_witness :
    handleAdapterError { name := some "AbortError" } =
      { type := .TIMEOUT
        userMessage := USER_MESSAGES .TIMEOUT
        debugInfo := "Request aborted due to timeout" } ∧
    dispatchTimeoutMs = 30000 :=
  ⟨(c7_abort_classified_timeout { name := some "AbortError" }).1 rfl rfl,
   (c7_abort_classified_timeout { name := some "AbortError" }).2⟩

/-- C8: dispatch with a provider identifier outside the registry (not
openai, gemini or claude) fails with the unknown-provider CanonicalError
of kind UNKNOWN, and the result does not depend on the adapter call at
all — no adapter is invoked. -/
theorem c8_unknown_provider_no_call (provider : String)
    (images : List ExtractedImage)
    (call call2 : Provider → List ExtractedImage → AdapterResult) :
    provider ≠ "openai" → provider ≠ "gemini" → provider ≠ "claude" →
    generateSummary provider images call =
      DispatchResult.failure
        { type := .UNKNOWN
          userMessage := "Unknown AI provider: " ++ provider
          debugInfo := "Provider " ++ provider ++ " not found" } ∧
    generateSummary provider images call = generateSummary provider images call2 := by
  intro h1 h2 h3
  have hp : providersLookup provider = none := by
    unfold providersLookup
    rw [if_neg h1, if_neg h2, if_neg h3]
  constructor
  · unfold generateSummary
    rw [hp]
  · unfold generateSummary
    rw [hp]

/-- C8 witness: the identifier "mistral" with two adapter stubs that
behave differently. -/
theorem c8_unknown_provider_no_call_witness :
    generateSummary "mistral" [{ url := "https://img", alt := "" }]
      (fun _ _ => AdapterResult.ok (Json.str "summary")) =
      DispatchResult.failure
        { type := .UNKNOWN
          userMessage := "Unknown AI provider: mistral"
          debugInfo := "Provider mistral not found" } ∧
    generateSummary "mistral" [{ url := "https://img", alt := "" }]
      (fun _ _ => AdapterResult.ok (Json.str "summary")) =
    generateSummary "mistral" [{ url := "https://img", alt := "" }]
      (fun _ _ => AdapterResult.thrown (HttpFailure.toThrown 500 none)) :=
  ⟨(c8_unknown_provider_no_call "mistral" [{ url := "https://img", alt := "" }]
      (fun _ _ => AdapterResult.ok (Json.str "summary"))
      (fun _ _ => AdapterResult.thrown (HttpFailure.toThrown 500 none))
      (by decide) (by decide) (by decide)).1,
   (c8_unknown_provider_no_call "mistral" [{ url := "https://img", alt := "" }]
      (fun _ _ => AdapterResult.ok (Json.str "summary"))
      (fun _ _ => AdapterResult.thrown (HttpFailure.toThrown 500 none))
      (by decide) (by decide) (by decide)).2⟩

/-- C10: the Claude adapter object defines no supportsMultimodal property,
so the dispatch capability filter always hands the Claude adapter an empty
image list — dispatch of any image list is indistinguishable from
dispatching none — and with an empty image list the Claude request body's
user content takes the plain-text shape, never the image-parts shape. -/
theorem c10_claude_dispatch_text_only :
    ClaudeProvider.supportsMultimodal = none ∧
    (∀ images : List ExtractedImage, imagesToPass ClaudeProvider images = []) ∧
    (∀ (images : List ExtractedImage)
        (call : Provider → List ExtractedImage → AdapterResult),
      generateSummary "claude" images call = generateSummary "claude" [] call) ∧
    (∀ userPrompt : String,
      claudeUserContent userPrompt [] = ClaudeUserContent.plain userPrompt) :=
  ⟨rfl, fun _ => rfl, fun _ _ => rfl, fun _ => rfl⟩

/-- The attachment loop produces nothing when every fetch failed. -/
theorem geminiAttachLoop_all_none (rs : List (Option ImageData)) (p : Nat)
    (h : ∀ r ∈ rs, r = none) : geminiAttachLoop rs p = [] := by
  induction rs generalizing p with
  | nil => rfl
  | cons r rest ih =>
    have hr : r = none := h r (List.mem_cons_self r rest)
    subst hr
    exact ih p (fun x hx => h x (List.mem_cons_of_mem none hx))

/-- The parts emitted by the attachment loop are the images of an
order-preserving sublist of the successful fetch results. -/
theorem geminiAttachLoop_sublist (rs : List (Option ImageData)) (p : Nat) :
    ∃ l : List ImageData, List.Sublist l (rs.filterMap id) ∧
      geminiAttachLoop rs p =
        l.map (fun d => GeminiPart.inline_data d.mimeType d.data) := by
  induction rs generalizing p with
  | nil => exact ⟨[], List.Sublist.refl _, rfl⟩
  | cons r rest ih =>
    cases r with
    | none =>
      obtain ⟨l, hsub, heq⟩ := ih p
      refine ⟨l, ?_, heq⟩
      simpa [List.filterMap_cons] using hsub
    | some d =>
      by_cases hcap : p + 3 * d.data.length > MAX_IMAGE_PAYLOAD_QB
      · refine ⟨[], List.nil_sublist _, ?_⟩
        simp only [geminiAttachLoop]
        rw [if_pos hcap]
        rfl
      · obtain ⟨l, hsub, heq⟩ := ih (p + 3 * d.data.length)
        refine ⟨d :: l, ?_, ?_⟩
        · simpa [List.filterMap_cons] using List.Sublist.cons₂ d hsub
        · simp only [geminiAttachLoop]
          rw [if_neg hcap]
          simp [heq]

/-- Applying `filterMap id` after `map f` is `filterMap f`. -/
theorem filterMap_id_after_map {α β : Type} (f : α → Option β) (l : List α) :
    (l.map f).filterMap id = l.filterMap f := by
  induction l with
  | nil => rfl
  | cons a l ih => cases h : f a <;> simp [List.filterMap_cons, h, ih]

/-- `geminiBuildParts` on an empty image list is just the text part. -/
theorem geminiBuildParts_nil (t : String) (f : String → Option ImageData) :
    geminiBuildParts t [] f = [GeminiPart.text t] := by
  unfold geminiBuildParts
  simp

/-- `geminiBuildParts` on a non-empty image list is the text part followed
by the attachment loop over the fetch results. -/
theorem geminiBuildParts_cons (t : String) (i : ExtractedImage)
    (rest : List ExtractedImage) (f : String → Option ImageData) :
    geminiBuildParts t (i :: rest) f =
      GeminiPart.text t ::
        geminiAttachLoop ((i :: rest).map fun img => f img.url) 0 := by
  unfold geminiBuildParts
  simp

/-- C9: the Gemini adapter degrades gracefully on image failures: the
request always carries the text part first; when every image fetch fails
the request is text-only (the call still proceeds); the attached images
are an order-preserving sublist of the successful fetch results (original
extraction order); and in the two-image case where the first fetch fails
and the second succeeds within the payload cap, the request carries the
text plus exactly that one image. -/
theorem c9_gemini_image_degradation (promptText : String)
    (images : List ExtractedImage) (fetchImage : String → Option ImageData) :
    (∃ rest, geminiBuildParts promptText images fetchImage =
        GeminiPart.text promptText :: rest) ∧
    ((∀ img ∈ images, fetchImage img.url = none) →
      geminiBuildParts promptText images fetchImage = [GeminiPart.text promptText]) ∧
    (∃ l : List ImageData,
      List.Sublist l (images.filterMap (fun img => fetchImage img.url)) ∧
      geminiBuildParts promptText images fetchImage =
        GeminiPart.text promptText ::
          l.map (fun d => GeminiPart.inline_data d.mimeType d.data)) ∧
    (∀ (i1 i2 : ExtractedImage) (d : ImageData),
      images = [i1, i2] → fetchImage i1.url = none → fetchImage i2.url = some d →
      3 * d.data.length ≤ MAX_IMAGE_PAYLOAD_QB →
      geminiBuildParts promptText images fetchImage =
        [GeminiPart.text promptText,
         GeminiPart.inline_data d.mimeType d.data]) := by
  refine ⟨?_, ?_, ?_, ?_⟩
  · cases images with
    | nil => exact ⟨[], geminiBuildParts_nil _ _⟩
    | cons i rest => exact ⟨_, geminiBuildParts_cons _ _ _ _⟩
  · intro hall
    cases images with
    | nil => exact geminiBuildParts_nil _ _
    | cons i rest =>
      rw [geminiBuildParts_cons,
        geminiAttachLoop_all_none _ 0 (by
          intro r hr
          simp only [List.mem_map] at hr
          obtain ⟨img, hin, hmap⟩ := hr
          rw [← hmap]
          exact hall img hin)]
  · cases images with
    | nil => exact ⟨[], by simp, geminiBuildParts_nil _ _⟩
    | cons i rest =>
      obtain ⟨l, hsub, heq⟩ :=
        geminiAttachLoop_sublist ((i :: rest).map fun img => fetchImage img.url) 0
      rw [filterMap_id_after_map] at hsub
      exact ⟨l, hsub, by rw [geminiBuildParts_cons, heq]⟩
  · intro i1 i2 d himg h1 h2 hcap
    subst himg
    rw [geminiBuildParts_cons]
    simp only [List.map_cons, List.map_nil, h1, h2]
    simp only [geminiAttachLoop]
    rw [if_neg (by omega)]

/-- C9 witness: one all-fail list proceeds text-only; a two-image list with
the first fetch failing yields text plus the second image. -/
theorem c9_gemini_image_degradation_witness :
    geminiBuildParts "prompt" [{ url := "https://a.png", alt := "a" }]
      (fun _ => none) = [GeminiPart.text "prompt"] ∧
    geminiBuildParts "prompt"
      [{ url := "https://a.png", alt := "a" }, { url := "https://b.png", alt := "b" }]
      (fun u => if u = "https://b.png" then
        some { data := "QUJD", mimeType := "image/png" } else none) =
      [GeminiPart.text "prompt", GeminiPart.inline_data "image/png" "QUJD"] :=
  ⟨(c9_gemini_image_degradation "prompt" [{ url := "https://a.png", alt := "a" }]
      (fun _ => none)).2.1 (fun _ _ => rfl),
   (c9_gemini_image_degradation "prompt"
      [{ url := "https://a.png", alt := "a" }, { url := "https://b.png", alt := "b" }]
      (fun u => if u = "https://b.png" then
        some { data := "QUJD", mimeType := "image/png" } else none)).2.2.2
      { url := "https://a.png", alt := "a" } { url := "https://b.png", alt := "b" }
      { data := "QUJD", mimeType := "image/png" }
      rfl (by decide) (by decide) (by decide)⟩
